import Mathlib

/-!
Verification of the kairos-init package-set resolution engine.

The repository contains two independently diverged copies of the catalog
data and the resolver:
* `src/pkg/values/packagemaps.go` — embedded below in namespace `Values`;
* the copy carried inside `src/Dockerfile` — embedded in namespace `Docker`.

Go maps are embedded as association lists in declaration order; a Go
`range` loop over a map visits entries in an unspecified order, which is
modelled where relevant by an explicit reordering parameter constrained to
be a permutation.  Machine integers do not occur (version segments are
arbitrary-precision in the model, as `strconv.ParseInt` overflow is out of
range for any realistic version string).
-/

set_option maxRecDepth 20000

/-- Modelled from the spec: closed enumeration of distribution identifiers
(`pkg/values` types are outside `src/`); the members are the ones named by
the catalogs and the spec. -/
inductive Distro
  | Ubuntu | Debian | Fedora | Arch | Alpine | Rocky
deriving DecidableEq, BEq, Repr

/-- Modelled from the spec: closed enumeration of distribution families. -/
inductive Family
  | DebianFamily | RedHatFamily | SUSEFamily | AlpineFamily | ArchFamily
deriving DecidableEq, BEq, Repr

/-- Modelled from the spec: the architecture axis — a specific CPU
architecture or the any-architecture wildcard `ArchCommon`. -/
inductive Architecture
  | ArchCommon | ArchAMD64 | ArchARM64
deriving DecidableEq, BEq, Repr

/-- Modelled from the spec: the System descriptor
{Distro, Family, Architecture, Version (string)}. -/
structure System where
  Distro : Distro
  Family : Family
  Arch : Architecture
  Version : String
deriving DecidableEq, Repr

/-- Source: `type DistroFamilyInterface interface{}` — a type-erased map key
holding either a distro or a family.  The two injections never compare
equal, matching Go interface equality between distinct dynamic types. -/
inductive DistroFamilyInterface
  | distro (d : Distro)
  | family (f : Family)
deriving DecidableEq, BEq, Repr

/-- Modelled from the spec: the unconditional sentinel constraint key
(`Common`).  Its concrete value is immaterial to the resolver provided it
is not a parsable semantic-version range, which the theorems only use
through `parseConstraint Common = none`. -/
def Common : String := "common"

/- ### Character-level string helpers (kernel-computable) -/

/-- Split a character list on every occurrence of a separator character. -/
def splitCharsOn (sep : Char) : List Char → List (List Char)
  | [] => [[]]
  | c :: cs =>
    let r := splitCharsOn sep cs
    if c = sep then [] :: r
    else
      match r with
      | [] => [[c]]
      | h :: t => (c :: h) :: t

/-- Remove leading and trailing whitespace, as the `\s*` groups of the
go-version constraint regular expression do. -/
def trimChars (l : List Char) : List Char :=
  ((l.dropWhile Char.isWhitespace).reverse.dropWhile Char.isWhitespace).reverse

/-- If `p` is a prefix of `l`, return the remainder of `l` after `p`. -/
def charsRest : List Char → List Char → Option (List Char)
  | [], rest => some rest
  | _ :: _, [] => none
  | p :: ps, c :: cs => if p = c then charsRest ps cs else none

/- ### Version Constraint Evaluator
Modelled from the `hashicorp/go-version` library used by both resolver
copies (`semver.NewVersion`, `semver.NewConstraint`, `Constraint.Check`),
restricted to the dotted-numeric core: a version is a dot-separated list of
decimal segments, comparison pads the shorter segment list with zeros, and
a constraint is a comma-conjoined list of `op version` clauses.  Every
version and constraint string occurring in the catalogs is of this form;
strings such as `bookworm` fail to parse both here and in the library. -/

/-- Decimal value of a digit string. -/
def digitsToNat (l : List Char) : Nat :=
  l.foldl (fun n c => n * 10 + (c.toNat - 48)) 0

/-- Parse one version segment: a nonempty string of decimal digits. -/
def parseSegment (l : List Char) : Option Nat :=
  match l with
  | [] => none
  | _ => if l.all Char.isDigit then some (digitsToNat l) else none

/-- Parse a dotted numeric version string (`semver.NewVersion`). -/
def parseVersion (s : String) : Option (List Nat) :=
  (splitCharsOn '.' s.data).mapM parseSegment

/-- Compare two segment lists, the shorter one padded with zeros. -/
def cmpV : List Nat → List Nat → Ordering
  | [], ys => if ys.all (· = 0) then .eq else .lt
  | x :: xs, [] => if x = 0 ∧ xs.all (· = 0) then .eq else .gt
  | x :: xs, y :: ys =>
    if x < y then .lt else if y < x then .gt else cmpV xs ys

/-- Comparison operators admitted by the go-version constraint syntax (the
pessimistic operator is unused by every catalog and omitted). -/
inductive COp
  | ceq | cne | cge | cle | cgt | clt
deriving DecidableEq, Repr

/-- Strip an optional leading comparison operator; no operator means
equality, as in go-version. -/
def splitOp (l : List Char) : COp × List Char :=
  match charsRest ['>', '='] l with
  | some r => (.cge, r)
  | none =>
    match charsRest ['<', '='] l with
    | some r => (.cle, r)
    | none =>
      match charsRest ['!', '='] l with
      | some r => (.cne, r)
      | none =>
        match charsRest ['='] l with
        | some r => (.ceq, r)
        | none =>
          match charsRest ['>'] l with
          | some r => (.cgt, r)
          | none =>
            match charsRest ['<'] l with
            | some r => (.clt, r)
            | none => (.ceq, l)

/-- Parse one comma-separated constraint clause. -/
def parseClause (l : List Char) : Option (COp × List Nat) :=
  let t := trimChars l
  let p := splitOp t
  ((splitCharsOn '.' (trimChars p.2)).mapM parseSegment).map (fun v => (p.1, v))

/-- Parse a comma-conjoined constraint string (`semver.NewConstraint`);
`none` models the library's parse error. -/
def parseConstraint (s : String) : Option (List (COp × List Nat)) :=
  (splitCharsOn ',' s.data).mapM parseClause

/-- Evaluate one clause against a concrete version. -/
def checkClause (v : List Nat) (c : COp × List Nat) : Bool :=
  match c.1, cmpV v c.2 with
  | .ceq, o => o == .eq
  | .cne, o => o != .eq
  | .cge, o => o == .gt || o == .eq
  | .cle, o => o == .lt || o == .eq
  | .cgt, o => o == .gt
  | .clt, o => o == .lt

/-- All comma-separated clauses must hold (`Constraint.Check`). -/
def checkConstraint (cs : List (COp × List Nat)) (v : List Nat) : Bool :=
  cs.all (checkClause v)

/- ### Template Expander
Modelled from the Go standard library `text/template` engine as used by
`PackageListToTemplate`: package names contain literal text and simple
field actions.  With map data and the default `missingkey` option the
engine substitutes the literal `<no value>` for a key absent from the map
and does not fail. -/

/-- An opening brace character, kept out of string literals. -/
def lbrace : Char := Char.ofNat 123

/-- A closing brace character. -/
def rbrace : Char := Char.ofNat 125

/-- One parsed template item: literal text or a `.field` action. -/
inductive TItem
  | lit (s : String)
  | field (name : String)
deriving DecidableEq, Repr

/-- Split a character list on every occurrence of a doubled delimiter
character (the action delimiters of text/template). -/
def splitOnPair (a : Char) : List Char → List (List Char)
  | [] => [[]]
  | [c] => [[c]]
  | c :: d :: rest =>
    if c = a ∧ d = a then [] :: splitOnPair a rest
    else
      match splitOnPair a (d :: rest) with
      | [] => [[c]]
      | h :: t => (c :: h) :: t

/-- Parse the inside of an action: optional spaces, a dot and a field
name; anything else is a template syntax error. -/
def parseAction (l : List Char) : Option TItem :=
  match trimChars l with
  | [] => none
  | c :: rest =>
    if c = '.' ∧ rest ≠ [] ∧ rest.all (fun x => x.isAlphanum || x = '_')
    then some (.field (String.mk rest))
    else none

/-- Parse one chunk following an opening delimiter: the action text up to
the first closing delimiter, then literal text. -/
def parseChunk (l : List Char) : Option (List TItem) :=
  match splitOnPair rbrace l with
  | [] => none
  | [_] => none
  | a :: rest =>
    (parseAction a).map
      (fun it => [it, .lit (String.mk (List.intercalate [rbrace, rbrace] rest))])

/-- Parse a package-name template (`template.New(...).Parse`); `.error`
models the library's syntax error. -/
def parseTemplate (s : String) : Except String (List TItem) :=
  match splitOnPair lbrace s.data with
  | [] => .ok []
  | first :: chunks =>
    match chunks.mapM parseChunk with
    | none => .error ("template parse error in " ++ s)
    | some items => .ok (.lit (String.mk first) :: items.flatten)

/-- Execute a parsed template against a string-keyed parameter map
(`Template.Execute` with map data): a missing key yields the literal
`<no value>` and never an error. -/
def executeTemplate (items : List TItem) (params : List (String × String)) : String :=
  items.foldl
    (fun acc it =>
      acc ++
        match it with
        | .lit s => s
        | .field n => (List.lookup n params).getD "<no value>")
    ""

/-- Source: `PackageListToTemplate` (identical in both copies) — expand
each package name in order, aborting with the first error and returning an
empty list alongside it. -/
def PackageListToTemplate : List String → List (String × String) → Except String (List String)
  | [], _ => .ok []
  | pkg :: rest, params =>
    match parseTemplate pkg with
    | .error e => .error e
    | .ok items =>
      match PackageListToTemplate rest params with
      | .error e => .error e
      | .ok tail => .ok (executeTemplate items params :: tail)

/- ### Catalog model -/

/-- Source: `type VersionMap map[string][]string`, as an association list
in declaration order. -/
abbrev VersionMap := List (String × List String)

/-- Source: `type PackageMap map[DistroFamilyInterface]map[Architecture]VersionMap`. -/
abbrev PackageMap := List (DistroFamilyInterface × List (Architecture × VersionMap))

/-- Source: the double map index `pm[k][a]` — a missing selector or a
missing architecture yields the zero value, an empty version map. -/
def lookupPM (pm : PackageMap) (k : DistroFamilyInterface) (a : Architecture) : VersionMap :=
  match List.lookup k pm with
  | none => []
  | some am => (List.lookup a am).getD []

/-- Source: the constraint loop shared by both resolver copies — a
`Common` key is always added; otherwise the key is parsed as a constraint,
a parse failure is logged and skipped, and a matching constraint adds the
entry's packages. -/
def filterVM (v : List Nat) (m : VersionMap) : List String :=
  m.flatMap
    (fun e =>
      if e.1 = Common then e.2
      else
        match parseConstraint e.1 with
        | none => []
        | some cs => if checkConstraint cs v then e.2 else [])

/-- Concatenate the constraint-filtered contents of a list of version maps
in order (the outer loop of both resolver copies). -/
def resolveList (v : List Nat) (vms : List VersionMap) : List String :=
  vms.flatMap (filterVM v)

/-- The package list carried by a resolver result; an error carries none. -/
def okList (e : Except String (List String)) : List String :=
  match e with
  | .ok l => l
  | .error _ => []

/- ### The `src/pkg/values/packagemaps.go` copy -/

namespace Values

/-- Source: `CommonPackages` in `src/pkg/values/packagemaps.go`. -/
def CommonPackages : List String :=
  ["file", "gawk", "iptables", "less", "nano", "sudo", "tar", "zstd", "rsync",
   "systemd", "dbus", "lvm2", "jq", "dosfstools", "e2fsprogs", "parted"]

/-- Source: `ImmucorePackages` in `src/pkg/values/packagemaps.go`. -/
def ImmucorePackages : PackageMap :=
  [(.family .DebianFamily,
    [(.ArchCommon,
      [(Common,
        ["dracut", "dracut-network", "isc-dhcp-common", "isc-dhcp-client",
         "systemd-sysv", "cloud-guest-utils"])])]),
   (.distro .Ubuntu,
    [(.ArchAMD64, [(">=22.04", ["dracut-live"])])]),
   (.distro .Debian,
    [(.ArchAMD64, [(Common, ["dracut-live"])])]),
   (.family .RedHatFamily,
    [(.ArchAMD64,
      [(Common,
        ["dracut", "dracut-live", "dracut-network", "dracut-squash",
         "squashfs-tools", "dhcp-client"])])])]

/-- Source: `KernelPackages` in `src/pkg/values/packagemaps.go`.  The
Ubuntu entry carries a templated package name whose braces are written as
character escapes. -/
def KernelPackages : PackageMap :=
  [(.distro .Ubuntu,
    [(.ArchAMD64,
      [(">=20.04, != 24.10", ["linux-image-generic-hwe-\x7b\x7b.version\x7d\x7d"]),
       ("24.10", ["linux-image-generic-hwe-24.04"])])]),
   (.distro .Debian,
    [(.ArchAMD64, [(Common, ["linux-image-amd64", "firmware-linux-free"])]),
     (.ArchARM64, [(Common, ["linux-image-arm64", "firmware-linux-free"])])]),
   (.family .RedHatFamily,
    [(.ArchCommon,
      [(Common, ["kernel", "kernel-modules", "kernel-modules-extra"])])])]

/-- Source: `BasePackages` in `src/pkg/values/packagemaps.go`. -/
def BasePackages : PackageMap :=
  [(.family .DebianFamily,
    [(.ArchCommon,
      [(Common,
        ["ca-certificates", "curl", "binutils", "conntrack", "console-setup",
         "coreutils", "cryptsetup", "debianutils", "ethtool", "fuse3",
         "gdisk", "gnupg", "gnupg1-l10n", "haveged", "iproute2", "iptables",
         "iputils-ping", "krb5-locales", "libatm1", "libglib2.0-data",
         "libgpm2", "libldap-common", "libnss-systemd", "libpam-cap",
         "libsasl2-modules", "mdadm", "nbd-client", "ncurses-term", "neovim",
         "nfs-common", "nftables", "open-iscsi", "openssh-server",
         "open-vm-tools", "os-prober", "patch", "pigz", "pkg-config",
         "psmisc", "publicsuffix", "python3-pynvim", "shared-mime-info",
         "snapd", "systemd-timesyncd", "xauth", "xclip", "xdg-user-dirs",
         "xxd", "xz-utils", "zerofree"]),
       ("bookworm", ["systemd-cryptsetup"]),
       ("testing", ["systemd-cryptsetup"])])]),
   (.family .SUSEFamily, [(.ArchCommon, [(Common, ["curl"])])]),
   (.family .ArchFamily, [(.ArchCommon, [(Common, ["curl"])])]),
   (.family .AlpineFamily, [(.ArchCommon, [(Common, ["curl"])])]),
   (.distro .Debian,
    [(.ArchCommon, [(Common, ["systemd-resolved", "nohang", "polkitd"])])]),
   (.distro .Ubuntu,
    [(.ArchCommon,
      [(Common,
        ["fdisk", "conntrack", "console-data", "cloud-guest-utils",
         "gettext", "systemd-container", "ubuntu-advantage-tools",
         "tpm2-tools", "dmsetup", "networkd-dispatcher", "packagekit-tools",
         "publicsuffix", "xdg-user-dirs", "zfsutils-linux"]),
       (">=24.04", ["systemd-resolved"])])]),
   (.family .RedHatFamily,
    [(.ArchCommon,
      [(Common,
        ["gdisk", "audit", "cracklib-dicts", "cloud-utils-growpart",
         "device-mapper", "openssh-server", "openssh-clients", "polkit",
         "qemu-guest-agent", "systemd-resolved", "which", "cryptsetup"])])]),
   (.distro .Fedora,
    [(.ArchCommon, [(Common, ["haveged", "systemd-networkd"])])])]

/-- Source: `GrubPackages` in `src/pkg/values/packagemaps.go`. -/
def GrubPackages : PackageMap :=
  [(.family .DebianFamily,
    [(.ArchAMD64,
      [(Common,
        ["grub2", "grub-efi-amd64-bin", "grub-efi-amd64-signed",
         "grub-pc-bin", "grub2-common", "kbd", "lldpd", "shim-signed",
         "snmpd", "squashfs-tools"])]),
     (.ArchARM64,
      [(Common,
        ["grub-efi-arm64", "grub-efi-arm64-bin", "grub-efi-arm64-signed"])])]),
   (.family .RedHatFamily,
    [(.ArchCommon, [(Common, ["grub2"])]),
     (.ArchAMD64,
      [(Common,
        ["grub2-efi-x64", "grub2-efi-x64-modules", "grub2-pc", "shim-x64"])]),
     (.ArchARM64,
      [(Common, ["grub2-efi-aa64", "grub2-efi-aa64-modules", "shim-aa64"])])])]

/-- Source: `SystemdPackages` in `src/pkg/values/packagemaps.go`. -/
def SystemdPackages : PackageMap :=
  [(.distro .Ubuntu,
    [(.ArchCommon,
      [(Common, ["systemd"]),
       (">=24.04", ["iucode-tool", "kmod", "linux-base", "systemd-boot"])])])]

/-- Source: `RpiPackages` in `src/pkg/values/packagemaps.go` (declared but
not consulted by `GetPackages`). -/
def RpiPackages : PackageMap :=
  [(.distro .Debian, [(.ArchAMD64, [("rpi4", ["raspi-firmware"])])])]

/-- Source: the `filteredPackages` slice built by `GetPackages`
(`src/pkg/values/packagemaps.go` lines 396-423), with the catalogs taken
as parameters so that replacing one by an empty catalog is expressible.
The base and ordinary-kernel lookups are present in both boot modes; the
trusted-boot branch adds only the systemd-boot lookups, the legacy branch
adds the grub and immucore lookups.  The trusted-boot flag models the
global `config.DefaultConfig.TrustedBoot` read. -/
def selectedMapsGen (base kern grub immu sysd : PackageMap)
    (s : System) (trusted : Bool) : List VersionMap :=
  [lookupPM base (.distro s.Distro) .ArchCommon,
   lookupPM base (.family s.Family) .ArchCommon,
   lookupPM base (.distro s.Distro) s.Arch,
   lookupPM base (.family s.Family) s.Arch,
   lookupPM kern (.distro s.Distro) .ArchCommon,
   lookupPM kern (.family s.Family) .ArchCommon,
   lookupPM kern (.distro s.Distro) s.Arch,
   lookupPM kern (.family s.Family) s.Arch] ++
  (if trusted then
    [lookupPM sysd (.distro s.Distro) .ArchCommon,
     lookupPM sysd (.family s.Family) .ArchCommon,
     lookupPM sysd (.distro s.Distro) s.Arch,
     lookupPM sysd (.family s.Family) s.Arch]
   else
    [lookupPM grub (.distro s.Distro) .ArchCommon,
     lookupPM grub (.family s.Family) .ArchCommon,
     lookupPM grub (.distro s.Distro) s.Arch,
     lookupPM grub (.family s.Family) s.Arch,
     lookupPM immu (.distro s.Distro) .ArchCommon,
     lookupPM immu (.family s.Family) .ArchCommon,
     lookupPM immu (.distro s.Distro) s.Arch,
     lookupPM immu (.family s.Family) s.Arch])

/-- The `filteredPackages` slice of `GetPackages` with the file's actual
catalogs. -/
def selectedMaps (s : System) (trusted : Bool) : List VersionMap :=
  selectedMapsGen BasePackages KernelPackages GrubPackages ImmucorePackages
    SystemdPackages s trusted

/-- Source: `GetPackages` in `src/pkg/values/packagemaps.go` with the Go
`range` order over each version map exposed as the reordering `r` (Go
leaves map iteration order unspecified; a call observes some permutation
of each map's entries).  An unparsable `System.Version` fails the whole
call. -/
def GetPackagesRanged (r : VersionMap → VersionMap) (s : System)
    (trusted : Bool) : Except String (List String) :=
  match parseVersion s.Version with
  | none => .error "Malformed version"
  | some v =>
    .ok (CommonPackages ++ (selectedMaps s trusted).flatMap (fun m => filterVM v (r m)))

/-- Source: `GetPackages` in `src/pkg/values/packagemaps.go`, read with
the declaration-order iteration (`r = id`). -/
def GetPackages (s : System) (trusted : Bool) : Except String (List String) :=
  GetPackagesRanged id s trusted

/-- `GetPackages` with the ordinary kernel catalog replaced, used to state
what the kernel catalog contributes in each mode. -/
def GetPackagesWithKernel (kern : PackageMap) (s : System) (trusted : Bool) :
    Except String (List String) :=
  match parseVersion s.Version with
  | none => .error "Malformed version"
  | some v =>
    .ok (CommonPackages ++
      resolveList v (selectedMapsGen BasePackages kern GrubPackages
        ImmucorePackages SystemdPackages s trusted))

end Values

/- ### The copy embedded in `src/Dockerfile` -/

namespace Docker

/-- Source: `CommonPackages` in the `src/Dockerfile` copy (no `systemd`
or `dbus`, unlike the `Values` copy). -/
def CommonPackages : List String :=
  ["file", "gawk", "iptables", "less", "nano", "sudo", "tar", "zstd", "rsync",
   "lvm2", "jq", "dosfstools", "e2fsprogs", "parted"]

/-- Source: `ImmucorePackages` in the `src/Dockerfile` copy. -/
def ImmucorePackages : PackageMap :=
  [(.family .DebianFamily,
    [(.ArchCommon,
      [(Common,
        ["dracut", "dracut-network", "isc-dhcp-common", "isc-dhcp-client",
         "cloud-guest-utils"])])]),
   (.distro .Ubuntu,
    [(.ArchCommon, [(">=22.04", ["dracut-live"])])]),
   (.distro .Debian,
    [(.ArchCommon, [(Common, ["dracut-live"])])]),
   (.family .RedHatFamily,
    [(.ArchCommon,
      [(Common,
        ["dracut", "dracut-live", "dracut-network", "dracut-squash",
         "squashfs-tools", "dhcp-client"])])]),
   (.family .SUSEFamily,
    [(.ArchCommon, [(Common, ["dracut", "squashfs", "dhcp-client"])])])]

/-- Source: `KernelPackages` in the `src/Dockerfile` copy (the Ubuntu
entries sit under the any-architecture key here). -/
def KernelPackages : PackageMap :=
  [(.distro .Ubuntu,
    [(.ArchCommon,
      [(">=20.04, != 24.10", ["linux-image-generic-hwe-\x7b\x7b.version\x7d\x7d"]),
       ("24.10", ["linux-image-generic-hwe-24.04"])])]),
   (.distro .Debian,
    [(.ArchAMD64, [(Common, ["linux-image-amd64", "firmware-linux-free"])]),
     (.ArchARM64, [(Common, ["linux-image-arm64", "firmware-linux-free"])])]),
   (.family .RedHatFamily,
    [(.ArchCommon,
      [(Common, ["kernel", "kernel-modules", "kernel-modules-extra"])])]),
   (.family .AlpineFamily,
    [(.ArchCommon, [(Common, ["linux-lts"])])]),
   (.family .SUSEFamily,
    [(.ArchCommon, [(Common, ["kernel-default"])])])]

/-- Source: `KernelPackagesTrustedBoot` in the `src/Dockerfile` copy; it
has no Ubuntu entry and repeats the ordinary kernel packages for Debian,
the RedHat family, the Alpine family and the SUSE family. -/
def KernelPackagesTrustedBoot : PackageMap :=
  [(.distro .Debian,
    [(.ArchAMD64, [(Common, ["linux-image-amd64", "firmware-linux-free"])]),
     (.ArchARM64, [(Common, ["linux-image-arm64", "firmware-linux-free"])])]),
   (.family .RedHatFamily,
    [(.ArchCommon,
      [(Common, ["kernel", "kernel-modules", "kernel-modules-extra"])])]),
   (.family .AlpineFamily,
    [(.ArchCommon, [(Common, ["linux-lts"])])]),
   (.family .SUSEFamily,
    [(.ArchCommon, [(Common, ["kernel-default"])])])]

/-- Source: `BasePackages` in the `src/Dockerfile` copy. -/
def BasePackages : PackageMap :=
  [(.family .DebianFamily,
    [(.ArchCommon,
      [(Common,
        ["ca-certificates", "curl", "binutils", "conntrack", "console-setup",
         "coreutils", "cryptsetup", "debianutils", "ethtool", "fuse3",
         "gdisk", "gnupg", "gnupg1-l10n", "haveged", "iproute2", "iptables",
         "iputils-ping", "krb5-locales", "libatm1", "libglib2.0-data",
         "libgpm2", "libldap-common", "libnss-systemd", "libpam-cap",
         "libsasl2-modules", "mdadm", "nbd-client", "ncurses-term", "neovim",
         "nfs-common", "nftables", "open-iscsi", "openssh-server",
         "open-vm-tools", "os-prober", "patch", "pigz", "pkg-config",
         "psmisc", "publicsuffix", "python3-pynvim", "shared-mime-info",
         "snapd", "systemd", "systemd-timesyncd", "systemd-sysv", "xauth",
         "xclip", "xdg-user-dirs", "xxd", "xz-utils", "zerofree"])])]),
   (.family .SUSEFamily,
    [(.ArchCommon,
      [(Common,
        ["curl", "bash-completion", "conntrack-tools", "cryptsetup",
         "coreutils", "device-mapper", "fail2ban", "findutils", "growpart",
         "gptfdisk", "haveged", "htop", "iproute2", "iputils",
         "issue-generator", "logrotate", "lsscsi", "mdadm",
         "multipath-tools", "open-iscsi", "openssh", "open-vm-tools",
         "pigz", "policycoreutils", "polkit", "procps", "qemu-guest-agent",
         "strace", "systemd", "systemd-network", "timezone", "tmux", "vim",
         "which", "tpm2*"])])]),
   (.family .AlpineFamily,
    [(.ArchCommon,
      [(Common,
        ["curl", "bash", "bash-completion", "blkid", "cloud-utils-growpart",
         "bonding", "bridge", "busybox-openrc", "ca-certificates", "connman",
         "conntrack-tools", "coreutils", "cryptsetup", "device-mapper-udev",
         "dbus", "dmidecode", "dosfstools", "e2fsprogs", "e2fsprogs-extra",
         "efibootmgr", "eudev", "eudev-hwids", "fail2ban", "findutils",
         "findmnt", "gcompat", "gettext", "haveged", "htop", "hvtools",
         "iproute2", "irqbalance", "iscsi-scst", "kbd-bkeymaps",
         "libc6-compat", "libusb", "lm-sensors", "logrotate", "lsscsi",
         "lvm2-extra", "mdadm", "mdadm-misc", "mdadm-udev",
         "multipath-tools", "ncurses", "ncurses-terminfo", "nfs-utils",
         "open-iscsi", "openrc", "openssh-client", "openssh-server",
         "open-vm-tools", "open-vm-tools-deploypkg",
         "open-vm-tools-guestinfo", "open-vm-tools-static",
         "open-vm-tools-vmbackup", "procps", "qemu-guest-agent", "rbd-nbd",
         "sgdisk", "smartmontools", "squashfs-tools", "strace", "tzdata",
         "util-linux", "vim", "which", "wireguard-tools", "wpa_supplicant",
         "xfsprogs", "xfsprogs-extra", "xz"])])]),
   (.family .RedHatFamily,
    [(.ArchCommon,
      [(Common,
        ["gdisk", "audit", "cracklib-dicts", "cloud-utils-growpart",
         "device-mapper", "openssh-server", "openssh-clients", "polkit",
         "qemu-guest-agent", "systemd", "systemd-resolved", "which",
         "cryptsetup"])])]),
   (.distro .Debian,
    [(.ArchCommon,
      [(Common, ["systemd-resolved", "nohang", "polkitd"]),
       (">=13", ["systemd-cryptsetup"])])]),
   (.distro .Ubuntu,
    [(.ArchCommon,
      [(Common,
        ["fdisk", "conntrack", "console-data", "cloud-guest-utils",
         "gettext", "systemd-container", "ubuntu-advantage-tools",
         "tpm2-tools", "dmsetup", "networkd-dispatcher", "packagekit-tools",
         "publicsuffix", "xdg-user-dirs", "zfsutils-linux"]),
       (">=24.04", ["systemd-resolved"])])]),
   (.distro .Fedora,
    [(.ArchCommon, [(Common, ["haveged", "systemd-networkd"])])])]

/-- Source: `GrubPackages` in the `src/Dockerfile` copy. -/
def GrubPackages : PackageMap :=
  [(.family .DebianFamily,
    [(.ArchCommon,
      [(Common, ["kbd", "lldpd", "shim-signed", "snmpd", "squashfs-tools"])]),
     (.ArchAMD64,
      [(Common,
        ["grub2", "grub-efi-amd64-bin", "grub-efi-amd64-signed",
         "grub-pc-bin", "grub2-common"])]),
     (.ArchARM64,
      [(Common,
        ["grub-efi-arm64", "grub-efi-arm64-bin", "grub-efi-arm64-signed"])])]),
   (.family .RedHatFamily,
    [(.ArchCommon, [(Common, ["grub2"])]),
     (.ArchAMD64,
      [(Common,
        ["grub2-efi-x64", "grub2-efi-x64-modules", "grub2-pc", "shim-x64"])]),
     (.ArchARM64,
      [(Common, ["grub2-efi-aa64", "grub2-efi-aa64-modules", "shim-aa64"])])]),
   (.family .AlpineFamily,
    [(.ArchAMD64, [(Common, ["grub-bios"])]),
     (.ArchCommon, [(Common, ["grub", "grub-efi"])])]),
   (.family .SUSEFamily,
    [(.ArchCommon, [(Common, ["nethogs", "patch", "shim", "iw"])]),
     (.ArchAMD64,
      [(Common, ["grub2-i386-pc", "grub2-x86_64-efi", "kernel-firmware-all"])]),
     (.ArchARM64,
      [(Common,
        ["bcm43xx-firmware", "grub2-arm64-efi", "kernel-firmware-ath10k",
         "kernel-firmware-ath11k", "kernel-firmware-atheros",
         "kernel-firmware-bluetooth", "kernel-firmware-brcm",
         "kernel-firmware-iwlwifi", "kernel-firmware-network",
         "kernel-firmware-realtek", "kernel-firmware-serial",
         "kernel-firmware-usb-network"])])]),
   (.distro .Ubuntu,
    [(.ArchCommon, [(Common, ["zfsutils-linux"])])])]

/-- Source: `SystemdPackages` in the `src/Dockerfile` copy. -/
def SystemdPackages : PackageMap :=
  [(.distro .Ubuntu,
    [(.ArchCommon,
      [(Common, ["systemd"]),
       (">=24.04", ["iucode-tool", "kmod", "linux-base", "systemd-boot"])])])]

/-- Source: `RpiPackages` in the `src/Dockerfile` copy (declared but not
consulted by `GetPackages`). -/
def RpiPackages : PackageMap :=
  [(.distro .Debian, [(.ArchAMD64, [("rpi4", ["raspi-firmware"])])]),
   (.distro .Arch,
    [(.ArchARM64, [("rpi3", ["linux-rpi"]), ("rpi4", ["linux-rpi4"])])]),
   (.family .SUSEFamily,
    [(.ArchARM64,
      [("rpi3",
        ["raspberrypi-eeprom", "raspberrypi-firmware",
         "raspberrypi-firmware-dt", "sysconfig", "sysconfig-netconfig",
         "sysvinit-tools", "wireless-tools", "wpa_supplicant"]),
       ("rpi4",
        ["raspberrypi-eeprom", "raspberrypi-firmware",
         "raspberrypi-firmware-dt", "sysconfig", "sysconfig-netconfig",
         "sysvinit-tools", "wireless-tools", "wpa_supplicant"])])])]

/-- Source: the four `BasePackages` lookups of the Dockerfile copy's
`GetPackages`, shared by both boot modes. -/
def baseMaps (s : System) : List VersionMap :=
  [lookupPM BasePackages (.distro s.Distro) .ArchCommon,
   lookupPM BasePackages (.family s.Family) .ArchCommon,
   lookupPM BasePackages (.distro s.Distro) s.Arch,
   lookupPM BasePackages (.family s.Family) s.Arch]

/-- The mode-dependent lookups of the Dockerfile copy's `GetPackages`
with the three legacy-only catalogs as parameters: trusted boot consults
the trusted-boot kernel and systemd-boot catalogs, legacy boot the
ordinary kernel, grub and immucore catalogs. -/
def modeMapsGen (kern grub immu : PackageMap) (s : System) (trusted : Bool) :
    List VersionMap :=
  if trusted then
    [lookupPM KernelPackagesTrustedBoot (.distro s.Distro) .ArchCommon,
     lookupPM KernelPackagesTrustedBoot (.family s.Family) .ArchCommon,
     lookupPM KernelPackagesTrustedBoot (.distro s.Distro) s.Arch,
     lookupPM KernelPackagesTrustedBoot (.family s.Family) s.Arch,
     lookupPM SystemdPackages (.distro s.Distro) .ArchCommon,
     lookupPM SystemdPackages (.family s.Family) .ArchCommon,
     lookupPM SystemdPackages (.distro s.Distro) s.Arch,
     lookupPM SystemdPackages (.family s.Family) s.Arch]
  else
    [lookupPM kern (.distro s.Distro) .ArchCommon,
     lookupPM kern (.family s.Family) .ArchCommon,
     lookupPM kern (.distro s.Distro) s.Arch,
     lookupPM kern (.family s.Family) s.Arch,
     lookupPM grub (.distro s.Distro) .ArchCommon,
     lookupPM grub (.family s.Family) .ArchCommon,
     lookupPM grub (.distro s.Distro) s.Arch,
     lookupPM grub (.family s.Family) s.Arch,
     lookupPM immu (.distro s.Distro) .ArchCommon,
     lookupPM immu (.family s.Family) .ArchCommon,
     lookupPM immu (.distro s.Distro) s.Arch,
     lookupPM immu (.family s.Family) s.Arch]

/-- The mode-dependent lookups with the file's actual catalogs. -/
def modeMaps (s : System) (trusted : Bool) : List VersionMap :=
  modeMapsGen KernelPackages GrubPackages ImmucorePackages s trusted

/-- The `filteredPackages` slice of the Dockerfile copy's `GetPackages`
(`src/Dockerfile` lines 672-703). -/
def selectedMaps (s : System) (trusted : Bool) : List VersionMap :=
  baseMaps s ++ modeMaps s trusted

/-- Source: `FilterPackagesOnConstraint` in the `src/Dockerfile` copy —
an unparsable `System.Version` silently yields the empty list, dropping
every catalog entry including the `Common`-keyed ones. -/
def FilterPackagesOnConstraint (s : System) (vms : List VersionMap) : List String :=
  match parseVersion s.Version with
  | none => []
  | some v => resolveList v vms

/-- Source: `GetPackages` in the `src/Dockerfile` copy; its Go error
result is constantly `nil`, so the call never fails. -/
def GetPackages (s : System) (trusted : Bool) : Except String (List String) :=
  .ok (CommonPackages ++ FilterPackagesOnConstraint s (selectedMaps s trusted))

/-- The Dockerfile copy's `GetPackages` with the three legacy-only
catalogs as parameters, used to state that they contribute nothing in
trusted-boot mode. -/
def GetPackagesGen (kern grub immu : PackageMap) (s : System) (trusted : Bool) :
    Except String (List String) :=
  .ok (CommonPackages ++
    FilterPackagesOnConstraint s (baseMaps s ++ modeMapsGen kern grub immu s trusted))

end Docker

/- ### Helper lemmas about the resolver core -/

/-- A `Common`-keyed entry of a version map contributes all its packages. -/
theorem filterVM_common_mem {m : VersionMap} {ps : List String}
    (hm : (Common, ps) ∈ m) {p : String} (hp : p ∈ ps) (v : List Nat) :
    p ∈ filterVM v m := by
  unfold filterVM
  exact List.mem_flatMap.mpr ⟨(Common, ps), hm, by simpa using hp⟩

/-- Membership in one selected version map's filtered contents gives
membership in the concatenated resolution. -/
theorem mem_resolveList {vms : List VersionMap} {m : VersionMap} {v : List Nat}
    (hm : m ∈ vms) {p : String} (hp : p ∈ filterVM v m) :
    p ∈ resolveList v vms :=
  List.mem_flatMap.mpr ⟨m, hm, hp⟩

/-- Every package contributed by the constraint filter occurs among the
values of the version map. -/
theorem filterVM_subset_vals (v : List Nat) (m : VersionMap) :
    ∀ p, p ∈ filterVM v m → p ∈ m.flatMap (fun e => e.2) := by
  intro p hp
  rcases List.mem_flatMap.mp hp with ⟨e, he, hpe⟩
  refine List.mem_flatMap.mpr ⟨e, he, ?_⟩
  split at hpe
  · exact hpe
  · split at hpe
    · simp at hpe
    · split at hpe
      · exact hpe
      · simp at hpe

/-- Every resolved package occurs among the values of the selected maps. -/
theorem resolveList_subset_vals (v : List Nat) (vms : List VersionMap) :
    ∀ p, p ∈ resolveList v vms →
      p ∈ vms.flatMap (fun m => m.flatMap (fun e => e.2)) := by
  intro p hp
  rcases List.mem_flatMap.mp hp with ⟨m, hm, hpm⟩
  exact List.mem_flatMap.mpr ⟨m, hm, filterVM_subset_vals v m p hpm⟩

/-- Permuting a version map's entries permutes its filtered contents. -/
theorem filterVM_perm {m1 m2 : VersionMap} (h : m1.Perm m2) (v : List Nat) :
    (filterVM v m1).Perm (filterVM v m2) :=
  h.flatMap_right _

/-- Two valid map-iteration orders produce permuted resolutions. -/
theorem resolveRanged_perm {r1 r2 : VersionMap → VersionMap}
    (h1 : ∀ m, (r1 m).Perm m) (h2 : ∀ m, (r2 m).Perm m) (v : List Nat) :
    ∀ vms : List VersionMap,
      (vms.flatMap (fun m => filterVM v (r1 m))).Perm
        (vms.flatMap (fun m => filterVM v (r2 m))) := by
  intro vms
  induction vms with
  | nil => exact .nil
  | cons m rest ih =>
    simp only [List.flatMap_cons]
    exact (filterVM_perm ((h1 m).trans (h2 m).symm) v).append ih

/- ### Claim C1: version-parse-failure discipline -/

/-- The graceful-degradation outcome described by the spec: the global
common list plus only the `Common`-keyed entries of every catalog touched. -/
def commonEntriesOnly (cp : List String) (vms : List VersionMap) : List String :=
  cp ++ vms.flatMap (fun m => m.flatMap (fun e => if e.1 = Common then e.2 else []))

/-- C1 as stated: on an unparsable `System.Version`, either every
resolution call (in both resolver copies) fails whole, or every call
degrades to the unconditional/Common entries of every catalog touched. -/
def uniformVersionDiscipline : Prop :=
  (∀ (s : System) (t : Bool), parseVersion s.Version = none →
     (∃ e, Values.GetPackages s t = .error e) ∧
     (∃ e, Docker.GetPackages s t = .error e))
  ∨ (∀ (s : System) (t : Bool), parseVersion s.Version = none →
     Values.GetPackages s t =
       .ok (commonEntriesOnly Values.CommonPackages (Values.selectedMaps s t)) ∧
     Docker.GetPackages s t =
       .ok (commonEntriesOnly Docker.CommonPackages (Docker.selectedMaps s t)))

/-- C1 fails on the code: for the concrete descriptor with version
`junk`, the `Values` copy fails whole while the `Docker` copy returns
successfully, so neither uniform discipline holds. -/
theorem c1_counterexample : ¬ uniformVersionDiscipline := by
  intro h
  rcases h with h | h
  · rcases (h ⟨.Ubuntu, .DebianFamily, .ArchAMD64, "junk"⟩ false rfl).2 with ⟨e, he⟩
    simp [Docker.GetPackages] at he
  · have h2 := (h ⟨.Ubuntu, .DebianFamily, .ArchAMD64, "junk"⟩ false rfl).1
    rw [show Values.GetPackages ⟨.Ubuntu, .DebianFamily, .ArchAMD64, "junk"⟩ false =
          Except.error "Malformed version" from rfl] at h2
    exact Except.noConfusion h2

/-- C1 amended: the two resolver copies follow different disciplines for
the same unparsable version — `Values.GetPackages` fails the whole call,
while `Docker.GetPackages` silently degrades, and degrades below the
spec's option (b): it returns only the global common list, dropping even
the catalogs' `Common`-keyed entries. -/
theorem c1_version_discipline_diverges (s : System) (t : Bool)
    (h : parseVersion s.Version = none) :
    Values.GetPackages s t = .error "Malformed version" ∧
    Docker.GetPackages s t = .ok Docker.CommonPackages := by
  constructor
  · simp [Values.GetPackages, Values.GetPackagesRanged, h]
  · simp [Docker.GetPackages, Docker.FilterPackagesOnConstraint, h]

/-- Witness for C1's amended theorem at the concrete version `bookworm`. -/
theorem c1_version_discipline_diverges_witness :
    Values.GetPackages ⟨.Debian, .DebianFamily, .ArchAMD64, "bookworm"⟩ false =
      .error "Malformed version" ∧
    Docker.GetPackages ⟨.Debian, .DebianFamily, .ArchAMD64, "bookworm"⟩ false =
      .ok Docker.CommonPackages :=
  c1_version_discipline_diverges _ _ rfl

/- ### Claim C2: determinism across repeated calls -/

/-- C2 as stated: two calls with identical inputs return identical
package lists.  A Go `range` over a map observes an unspecified entry
order per call, so a call is `GetPackagesRanged r` for some reordering
`r` producing a permutation of each map; the claim asserts the result
does not depend on that order. -/
def resolverOrderInsensitive : Prop :=
  ∀ r1 r2 : VersionMap → VersionMap,
    (∀ m, (r1 m).Perm m) → (∀ m, (r2 m).Perm m) →
    ∀ (s : System) (t : Bool),
      Values.GetPackagesRanged r1 s t = Values.GetPackagesRanged r2 s t

set_option maxHeartbeats 4000000 in
/-- C2 fails on the code: iterating every version map in declaration
order and in reversed order are both valid Go map iterations, and for an
Ubuntu amd64 system at 24.04 they produce differently ordered outputs
(the Ubuntu base map holds a `Common` entry and a matching `>=24.04`
entry whose relative output order is the iteration order). -/
theorem c2_counterexample : ¬ resolverOrderInsensitive := by
  intro h
  have heq := h id List.reverse (fun m => List.Perm.refl m) (fun m => m.reverse_perm)
    ⟨.Ubuntu, .DebianFamily, .ArchAMD64, "24.04"⟩ false
  exact absurd (congrArg okList heq) (by decide)

/-- C2 amended: for a parsable version the output is independent of the
map iteration orders only up to permutation — the same multiset of
names, not necessarily the same order. -/
theorem c2_output_perm_invariant (r1 r2 : VersionMap → VersionMap)
    (h1 : ∀ m, (r1 m).Perm m) (h2 : ∀ m, (r2 m).Perm m)
    (s : System) (t : Bool) (v : List Nat)
    (hv : parseVersion s.Version = some v) :
    (okList (Values.GetPackagesRanged r1 s t)).Perm
      (okList (Values.GetPackagesRanged r2 s t)) := by
  simp only [Values.GetPackagesRanged, hv, okList]
  exact List.Perm.append_left _ (resolveRanged_perm h1 h2 v _)

/-- Witness for C2's amended theorem: declaration order against reversed
order at a concrete Ubuntu system. -/
theorem c2_output_perm_invariant_witness :
    (okList (Values.GetPackagesRanged id
        ⟨.Ubuntu, .DebianFamily, .ArchAMD64, "24.04"⟩ false)).Perm
      (okList (Values.GetPackagesRanged List.reverse
        ⟨.Ubuntu, .DebianFamily, .ArchAMD64, "24.04"⟩ false)) :=
  c2_output_perm_invariant id List.reverse (fun m => List.Perm.refl m)
    (fun m => m.reverse_perm) _ false [24, 4] rfl

/- ### Claim C3: catalog selection by boot mode -/

/-- C3 fails on the `Values` copy: in trusted-boot mode the ordinary
kernel catalog still contributes — zeroing it changes the output for a
Fedora system, whose trusted-boot output contains `kernel` drawn from
`KernelPackages` (the `Values` copy has no trusted-boot kernel catalog
at all). -/
theorem c3_counterexample :
    okList (Values.GetPackagesWithKernel Values.KernelPackages
        ⟨.Fedora, .RedHatFamily, .ArchAMD64, "40"⟩ true) ≠
      okList (Values.GetPackagesWithKernel []
        ⟨.Fedora, .RedHatFamily, .ArchAMD64, "40"⟩ true) ∧
    Values.GetPackagesWithKernel Values.KernelPackages
        ⟨.Fedora, .RedHatFamily, .ArchAMD64, "40"⟩ true =
      Values.GetPackages ⟨.Fedora, .RedHatFamily, .ArchAMD64, "40"⟩ true ∧
    "kernel" ∈ okList (Values.GetPackages ⟨.Fedora, .RedHatFamily, .ArchAMD64, "40"⟩ true) :=
  ⟨by decide, rfl, by decide⟩

/-- C3 amended: the Dockerfile resolver behaves as claimed — in trusted
boot its output is independent of the ordinary kernel, grub and immucore
catalogs, it draws the mode lookups from `KernelPackagesTrustedBoot` and
`SystemdPackages`, and the Base lookups are present in both modes; the
`Values` resolver instead consults the ordinary kernel catalog in both
modes (it has no trusted-boot kernel catalog), dropping only the grub
and immucore catalogs in trusted-boot mode. -/
theorem c3_mode_catalog_selection :
    (∀ (kern grub immu kern2 grub2 immu2 : PackageMap) (s : System),
       Docker.GetPackagesGen kern grub immu s true =
         Docker.GetPackagesGen kern2 grub2 immu2 s true)
    ∧ (∀ (s : System) (t : Bool),
       Docker.GetPackages s t =
         Docker.GetPackagesGen Docker.KernelPackages Docker.GrubPackages
           Docker.ImmucorePackages s t)
    ∧ (∀ s : System, Docker.modeMaps s true =
       [lookupPM Docker.KernelPackagesTrustedBoot (.distro s.Distro) .ArchCommon,
        lookupPM Docker.KernelPackagesTrustedBoot (.family s.Family) .ArchCommon,
        lookupPM Docker.KernelPackagesTrustedBoot (.distro s.Distro) s.Arch,
        lookupPM Docker.KernelPackagesTrustedBoot (.family s.Family) s.Arch,
        lookupPM Docker.SystemdPackages (.distro s.Distro) .ArchCommon,
        lookupPM Docker.SystemdPackages (.family s.Family) .ArchCommon,
        lookupPM Docker.SystemdPackages (.distro s.Distro) s.Arch,
        lookupPM Docker.SystemdPackages (.family s.Family) s.Arch])
    ∧ (∀ (s : System) (t : Bool),
       Docker.selectedMaps s t = Docker.baseMaps s ++ Docker.modeMaps s t)
    ∧ (∀ s : System, Values.selectedMaps s true =
       [lookupPM Values.BasePackages (.distro s.Distro) .ArchCommon,
        lookupPM Values.BasePackages (.family s.Family) .ArchCommon,
        lookupPM Values.BasePackages (.distro s.Distro) s.Arch,
        lookupPM Values.BasePackages (.family s.Family) s.Arch,
        lookupPM Values.KernelPackages (.distro s.Distro) .ArchCommon,
        lookupPM Values.KernelPackages (.family s.Family) .ArchCommon,
        lookupPM Values.KernelPackages (.distro s.Distro) s.Arch,
        lookupPM Values.KernelPackages (.family s.Family) s.Arch,
        lookupPM Values.SystemdPackages (.distro s.Distro) .ArchCommon,
        lookupPM Values.SystemdPackages (.family s.Family) .ArchCommon,
        lookupPM Values.SystemdPackages (.distro s.Distro) s.Arch,
        lookupPM Values.SystemdPackages (.family s.Family) s.Arch]) :=
  ⟨fun _ _ _ _ _ _ _ => rfl, fun _ _ => rfl, fun _ => rfl, fun _ _ => rfl, fun _ => rfl⟩

/- ### Claim C4: mode disjointness -/

namespace Docker

/-- The Base-catalog contribution of the Dockerfile resolver, shared by
both boot modes. -/
def basePart (s : System) (v : List Nat) : List String :=
  resolveList v (baseMaps s)

/-- The mode-selected (kernel/bootloader) contribution of the Dockerfile
resolver. -/
def modePart (s : System) (t : Bool) (v : List Nat) : List String :=
  resolveList v (modeMaps s t)

end Docker

/-- C4 fails on the code: for a Debian amd64 system the trusted-boot
kernel catalog repeats the ordinary kernel packages, so the trusted and
legacy mode contributions share `linux-image-amd64` and are not
disjoint. -/
theorem c4_counterexample :
    "linux-image-amd64" ∈
      Docker.modePart ⟨.Debian, .DebianFamily, .ArchAMD64, "12"⟩ true [12] ∧
    "linux-image-amd64" ∈
      Docker.modePart ⟨.Debian, .DebianFamily, .ArchAMD64, "12"⟩ false [12] ∧
    parseVersion "12" = some [12] ∧
    "linux-image-amd64" ∈
      okList (Docker.GetPackages ⟨.Debian, .DebianFamily, .ArchAMD64, "12"⟩ true) ∧
    "linux-image-amd64" ∈
      okList (Docker.GetPackages ⟨.Debian, .DebianFamily, .ArchAMD64, "12"⟩ false) ∧
    ¬ List.Disjoint
        (Docker.modePart ⟨.Debian, .DebianFamily, .ArchAMD64, "12"⟩ true [12])
        (Docker.modePart ⟨.Debian, .DebianFamily, .ArchAMD64, "12"⟩ false [12]) :=
  ⟨by decide, by decide, rfl, by decide, by decide, by
    intro h
    exact h
      (show "linux-image-amd64" ∈
        Docker.modePart ⟨.Debian, .DebianFamily, .ArchAMD64, "12"⟩ true [12] by decide)
      (by decide)⟩

/-- C4 amended: for every system with parsable version the Common prefix
and the Base-catalog contribution are identical across boot modes (the
output decomposes as common ++ base ++ mode, with only the mode part
depending on the flag); the mode contributions are disjoint for Ubuntu
amd64 systems at every parsable version, but not for every system, as
the Debian counterexample shows. -/
theorem c4_mode_decomposition_and_ubuntu_disjoint :
    (∀ (s : System) (t : Bool) (v : List Nat), parseVersion s.Version = some v →
       okList (Docker.GetPackages s t) =
         Docker.CommonPackages ++ Docker.basePart s v ++ Docker.modePart s t v)
    ∧ (∀ (ver : String) (v : List Nat), parseVersion ver = some v →
       List.Disjoint
         (Docker.modePart ⟨.Ubuntu, .DebianFamily, .ArchAMD64, ver⟩ true v)
         (Docker.modePart ⟨.Ubuntu, .DebianFamily, .ArchAMD64, ver⟩ false v)) := by
  constructor
  · intro s t v hv
    simp only [Docker.GetPackages, Docker.FilterPackagesOnConstraint, hv,
      Docker.selectedMaps, okList, Docker.basePart, Docker.modePart,
      resolveList, List.flatMap_append, List.append_assoc]
  · intro ver v hv p h1 h2
    have m1 := resolveList_subset_vals v
      (Docker.modeMaps ⟨.Ubuntu, .DebianFamily, .ArchAMD64, ver⟩ true) p h1
    have m2 := resolveList_subset_vals v
      (Docker.modeMaps ⟨.Ubuntu, .DebianFamily, .ArchAMD64, ver⟩ false) p h2
    rw [show (Docker.modeMaps ⟨.Ubuntu, .DebianFamily, .ArchAMD64, ver⟩ true).flatMap
          (fun m => m.flatMap (fun e => e.2)) =
        ["systemd", "iucode-tool", "kmod", "linux-base", "systemd-boot"] from rfl] at m1
    rw [show (Docker.modeMaps ⟨.Ubuntu, .DebianFamily, .ArchAMD64, ver⟩ false).flatMap
          (fun m => m.flatMap (fun e => e.2)) =
        ["linux-image-generic-hwe-\x7b\x7b.version\x7d\x7d",
         "linux-image-generic-hwe-24.04", "zfsutils-linux", "kbd", "lldpd",
         "shim-signed", "snmpd", "squashfs-tools", "grub2",
         "grub-efi-amd64-bin", "grub-efi-amd64-signed", "grub-pc-bin",
         "grub2-common", "dracut-live", "dracut", "dracut-network",
         "isc-dhcp-common", "isc-dhcp-client", "cloud-guest-utils"] from rfl] at m2
    revert m2
    have hd : ∀ q ∈ (["systemd", "iucode-tool", "kmod", "linux-base",
        "systemd-boot"] : List String),
        q ∉ (["linux-image-generic-hwe-\x7b\x7b.version\x7d\x7d",
         "linux-image-generic-hwe-24.04", "zfsutils-linux", "kbd", "lldpd",
         "shim-signed", "snmpd", "squashfs-tools", "grub2",
         "grub-efi-amd64-bin", "grub-efi-amd64-signed", "grub-pc-bin",
         "grub2-common", "dracut-live", "dracut", "dracut-network",
         "isc-dhcp-common", "isc-dhcp-client", "cloud-guest-utils"] : List String) := by
      decide
    exact hd p m1

/-- Witness for C4's amended theorem at concrete Debian and Ubuntu
systems. -/
theorem c4_mode_decomposition_witness :
    okList (Docker.GetPackages ⟨.Debian, .DebianFamily, .ArchAMD64, "12.5"⟩ false) =
      Docker.CommonPackages ++
        Docker.basePart ⟨.Debian, .DebianFamily, .ArchAMD64, "12.5"⟩ [12, 5] ++
        Docker.modePart ⟨.Debian, .DebianFamily, .ArchAMD64, "12.5"⟩ false [12, 5] ∧
    List.Disjoint
      (Docker.modePart ⟨.Ubuntu, .DebianFamily, .ArchAMD64, "24.04"⟩ true [24, 4])
      (Docker.modePart ⟨.Ubuntu, .DebianFamily, .ArchAMD64, "24.04"⟩ false [24, 4]) :=
  ⟨c4_mode_decomposition_and_ubuntu_disjoint.1 _ false [12, 5] rfl,
   c4_mode_decomposition_and_ubuntu_disjoint.2 "24.04" [24, 4] rfl⟩

/- ### Claim C5: template expansion failure modes -/

/-- C5 fails on the code: a key absent from the parameter map does not
produce an execution error — the call succeeds and the placeholder is
replaced by the literal dummy `<no value>` (the text/template default
`missingkey` behaviour for map data, which the code does not override). -/
theorem c5_counterexample :
    PackageListToTemplate ["linux-image-generic-hwe-\x7b\x7b.version\x7d\x7d"] [] =
      .ok ["linux-image-generic-hwe-<no value>"] := rfl

/-- C5 amended: a malformed placeholder anywhere in the list makes the
whole call fail with a template error, but a missing key does not fail:
expansion succeeds, substituting the referenced key's value when present
and the literal `<no value>` when absent. -/
theorem c5_template_failure_modes :
    (∀ (pkgs : List String) (params : List (String × String)) (pkg e : String),
       pkg ∈ pkgs → parseTemplate pkg = .error e →
       ∃ e2, PackageListToTemplate pkgs params = .error e2)
    ∧ PackageListToTemplate ["linux-image-generic-hwe-\x7b\x7b.version\x7d\x7d"]
        [("version", "24.04")] = .ok ["linux-image-generic-hwe-24.04"]
    ∧ PackageListToTemplate ["a-\x7b\x7b.missing\x7d\x7d"] [] = .ok ["a-<no value>"] := by
  refine ⟨?_, rfl, rfl⟩
  intro pkgs
  induction pkgs with
  | nil => intro params pkg e h; simp at h
  | cons hd tl ih =>
    intro params pkg e hmem hpe
    rcases List.mem_cons.mp hmem with h | h
    · subst h
      exact ⟨e, by simp [PackageListToTemplate, hpe]⟩
    · cases hph : parseTemplate hd with
      | error e2 => exact ⟨e2, by simp [PackageListToTemplate, hph]⟩
      | ok items =>
        rcases ih params pkg e h hpe with ⟨e2, h2⟩
        exact ⟨e2, by simp [PackageListToTemplate, hph, h2]⟩

/-- Witness for C5's amended theorem: an unclosed action aborts the whole
expansion. -/
theorem c5_template_failure_modes_witness :
    ∃ e2, PackageListToTemplate ["ok-name", "bad-\x7b\x7b.version"] [] = .error e2 :=
  c5_template_failure_modes.1 ["ok-name", "bad-\x7b\x7b.version"] []
    "bad-\x7b\x7b.version" "template parse error in bad-\x7b\x7b.version"
    (by decide) rfl

/- ### Claim C6: negated exclusion combined with a range -/

/-- C6 holds: the constraint `>=20.04, != 24.10` parses to the
conjunction of a lower bound and an exclusion, matches 24.04 and not
24.10, and consequently the resolver output for an Ubuntu amd64 system at
24.10 contains the package keyed `24.10` and not the one keyed
`>=20.04, != 24.10`. -/
theorem c6_negated_exclusion_range :
    parseConstraint ">=20.04, != 24.10" = some [(.cge, [20, 4]), (.cne, [24, 10])] ∧
    checkConstraint [(.cge, [20, 4]), (.cne, [24, 10])] [24, 4] = true ∧
    checkConstraint [(.cge, [20, 4]), (.cne, [24, 10])] [24, 10] = false ∧
    parseVersion "24.04" = some [24, 4] ∧
    parseVersion "24.10" = some [24, 10] ∧
    "linux-image-generic-hwe-24.04" ∈
      okList (Values.GetPackages ⟨.Ubuntu, .DebianFamily, .ArchAMD64, "24.10"⟩ false) ∧
    "linux-image-generic-hwe-\x7b\x7b.version\x7d\x7d" ∉
      okList (Values.GetPackages ⟨.Ubuntu, .DebianFamily, .ArchAMD64, "24.10"⟩ false) :=
  ⟨rfl, rfl, rfl, rfl, rfl, by decide, by decide⟩

/- ### Claim C7: unconditional inclusion of Common-keyed entries -/

/-- C7 holds in both resolver copies: whenever a selected catalog lookup
yields a version map holding a `Common`-keyed package list, every one of
its packages is in the resolver output, for every parsable version. -/
theorem c7_common_entries_always_included :
    (∀ (s : System) (t : Bool) (v : List Nat) (m : VersionMap)
       (ps : List String) (p : String),
       parseVersion s.Version = some v → m ∈ Values.selectedMaps s t →
       (Common, ps) ∈ m → p ∈ ps →
       p ∈ okList (Values.GetPackages s t))
    ∧ (∀ (s : System) (t : Bool) (v : List Nat) (m : VersionMap)
       (ps : List String) (p : String),
       parseVersion s.Version = some v → m ∈ Docker.selectedMaps s t →
       (Common, ps) ∈ m → p ∈ ps →
       p ∈ okList (Docker.GetPackages s t)) := by
  constructor
  · intro s t v m ps p hv hm hc hp
    have h2 : p ∈ resolveList v (Values.selectedMaps s t) :=
      mem_resolveList hm (filterVM_common_mem hc hp v)
    simp only [Values.GetPackages, Values.GetPackagesRanged, hv, okList, id_eq]
    exact List.mem_append.mpr (Or.inr h2)
  · intro s t v m ps p hv hm hc hp
    have h2 : p ∈ resolveList v (Docker.selectedMaps s t) :=
      mem_resolveList hm (filterVM_common_mem hc hp v)
    simp only [Docker.GetPackages, Docker.FilterPackagesOnConstraint, hv, okList]
    exact List.mem_append.mpr (Or.inr h2)

/-- Witness for C7 at a concrete Debian system: the `Common`-keyed Debian
base entry `nohang` is in both outputs. -/
theorem c7_common_entries_witness :
    "nohang" ∈ okList (Values.GetPackages ⟨.Debian, .DebianFamily, .ArchAMD64, "12"⟩ false) ∧
    "nohang" ∈ okList (Docker.GetPackages ⟨.Debian, .DebianFamily, .ArchAMD64, "12"⟩ false) :=
  ⟨c7_common_entries_always_included.1 _ false [12]
     (lookupPM Values.BasePackages (.distro .Debian) .ArchCommon)
     ["systemd-resolved", "nohang", "polkitd"] "nohang" rfl
     (by decide) (by decide) (by decide),
   c7_common_entries_always_included.2 _ false [12]
     (lookupPM Docker.BasePackages (.distro .Debian) .ArchCommon)
     ["systemd-resolved", "nohang", "polkitd"] "nohang" rfl
     (by decide) (by decide) (by decide)⟩

/- ### Claim C8: constraint parse failure is entry-local -/

/-- C8 holds: a non-`Common` key whose constraint fails to parse
contributes nothing and its removal leaves the filtered output of every
other entry unchanged, and no catalog content can make either resolver
fail — the `Values` copy returns `.ok` for every catalog whenever the
version parses, and the Dockerfile copy always returns `.ok`. -/
theorem c8_constraint_parse_failure_entry_local :
    (∀ (v : List Nat) (pre rest : VersionMap) (k : String) (ps : List String),
       k ≠ Common → parseConstraint k = none →
       filterVM v (pre ++ (k, ps) :: rest) = filterVM v pre ++ filterVM v rest)
    ∧ (∀ (kern : PackageMap) (s : System) (t : Bool) (v : List Nat),
       parseVersion s.Version = some v →
       ∃ l, Values.GetPackagesWithKernel kern s t = .ok l)
    ∧ (∀ (s : System) (t : Bool), ∃ l, Docker.GetPackages s t = .ok l) := by
  refine ⟨?_, ?_, ?_⟩
  · intro v pre rest k ps hk hc
    simp [filterVM, List.flatMap_append, List.flatMap_cons, hk, hc]
  · intro kern s t v hv
    unfold Values.GetPackagesWithKernel
    rw [hv]
    exact ⟨_, rfl⟩
  · intro s t
    exact ⟨_, rfl⟩

/-- Witness for C8: the unparsable `bookworm` key of the Debian-family
base map is skipped without disturbing its sibling entry, and concrete
resolution calls return `.ok`. -/
theorem c8_constraint_parse_failure_witness :
    filterVM [12] ([] ++ ("bookworm", ["systemd-cryptsetup"]) ::
        [("testing", ["systemd-cryptsetup"])]) =
      filterVM [12] [] ++ filterVM [12] [("testing", ["systemd-cryptsetup"])] ∧
    (∃ l, Values.GetPackagesWithKernel Values.KernelPackages
        ⟨.Debian, .DebianFamily, .ArchAMD64, "12"⟩ false = .ok l) ∧
    (∃ l, Docker.GetPackages ⟨.Alpine, .AlpineFamily, .ArchARM64, "junk"⟩ true = .ok l) :=
  ⟨c8_constraint_parse_failure_entry_local.1 [12] []
     [("testing", ["systemd-cryptsetup"])] "bookworm" ["systemd-cryptsetup"]
     (by decide) rfl,
   c8_constraint_parse_failure_entry_local.2.1 Values.KernelPackages _ false [12] rfl,
   c8_constraint_parse_failure_entry_local.2.2 _ true⟩

/- ### Claim C9: missing axis combinations -/

/-- C9 holds: a selector absent from a catalog, or an architecture absent
under a present selector, yields the empty version map, an empty version
map contributes no packages, and neither resolver errors for any such
lookup — the `Values` copy returns `.ok` whenever the version parses and
the Dockerfile copy always returns `.ok`. -/
theorem c9_missing_axis_yields_empty :
    (∀ (pm : PackageMap) (k : DistroFamilyInterface) (a : Architecture),
       List.lookup k pm = none → lookupPM pm k a = [])
    ∧ (∀ (pm : PackageMap) (k : DistroFamilyInterface) (a : Architecture)
         (am : List (Architecture × VersionMap)),
       List.lookup k pm = some am → List.lookup a am = none → lookupPM pm k a = [])
    ∧ (∀ v : List Nat, filterVM v [] = [])
    ∧ (∀ (s : System) (t : Bool) (v : List Nat), parseVersion s.Version = some v →
       Values.GetPackages s t =
         .ok (Values.CommonPackages ++ resolveList v (Values.selectedMaps s t)))
    ∧ (∀ (s : System) (t : Bool),
       Docker.GetPackages s t =
         .ok (Docker.CommonPackages ++
           Docker.FilterPackagesOnConstraint s (Docker.selectedMaps s t))) := by
  refine ⟨?_, ?_, ?_, ?_, ?_⟩
  · intro pm k a h
    unfold lookupPM
    rw [h]
  · intro pm k a am h1 h2
    simp [lookupPM, h1, h2]
  · intro v
    rfl
  · intro s t v hv
    unfold Values.GetPackages Values.GetPackagesRanged
    rw [hv]
    rfl
  · intro s t
    rfl

/-- Witness for C9 at concrete missing axes: the systemd-boot catalog has
no Debian selector, the Ubuntu systemd-boot entry has no arm64 axis, and
a concrete Fedora call resolves successfully. -/
theorem c9_missing_axis_witness :
    lookupPM Values.SystemdPackages (.distro .Debian) .ArchAMD64 = [] ∧
    lookupPM Values.SystemdPackages (.distro .Ubuntu) .ArchARM64 = [] ∧
    Values.GetPackages ⟨.Fedora, .RedHatFamily, .ArchARM64, "40"⟩ false =
      .ok (Values.CommonPackages ++ resolveList [40]
        (Values.selectedMaps ⟨.Fedora, .RedHatFamily, .ArchARM64, "40"⟩ false)) :=
  ⟨c9_missing_axis_yields_empty.1 Values.SystemdPackages (.distro .Debian) .ArchAMD64 rfl,
   c9_missing_axis_yields_empty.2.1 Values.SystemdPackages (.distro .Ubuntu) .ArchARM64
     [(.ArchCommon,
       [(Common, ["systemd"]),
        (">=24.04", ["iucode-tool", "kmod", "linux-base", "systemd-boot"])])]
     rfl rfl,
   c9_missing_axis_yields_empty.2.2.2.1 _ false [40] rfl⟩

/- ### Claim C10: any-architecture systems duplicate entries -/

/-- The pair of any-architecture lookups (distro then family) of one
catalog, constraint-filtered. -/
def axisPair (pm : PackageMap) (s : System) (v : List Nat) : List String :=
  filterVM v (lookupPM pm (.distro s.Distro) .ArchCommon) ++
  filterVM v (lookupPM pm (.family s.Family) .ArchCommon)

/-- C10 holds: when `s.Arch` is the any-architecture sentinel, the
specific-architecture lookups coincide with the any-architecture ones, so
both resolver outputs consist of the common prefix followed by each
catalog's any-architecture pair twice, and every package of the base
pair occurs at least twice in the `Values` output. -/
theorem c10_archcommon_system_duplicates :
    ∀ (s : System) (t : Bool) (v : List Nat),
      parseVersion s.Version = some v → s.Arch = .ArchCommon →
      (okList (Values.GetPackages s t) =
        Values.CommonPackages ++
          (axisPair Values.BasePackages s v ++ axisPair Values.BasePackages s v) ++
          (axisPair Values.KernelPackages s v ++ axisPair Values.KernelPackages s v) ++
          (if t then
            axisPair Values.SystemdPackages s v ++ axisPair Values.SystemdPackages s v
           else
            (axisPair Values.GrubPackages s v ++ axisPair Values.GrubPackages s v) ++
            (axisPair Values.ImmucorePackages s v ++ axisPair Values.ImmucorePackages s v)))
      ∧ (∀ p, p ∈ axisPair Values.BasePackages s v →
          2 ≤ (okList (Values.GetPackages s t)).count p)
      ∧ (okList (Docker.GetPackages s t) =
          Docker.CommonPackages ++
            (axisPair Docker.BasePackages s v ++ axisPair Docker.BasePackages s v) ++
            (if t then
              (axisPair Docker.KernelPackagesTrustedBoot s v ++
               axisPair Docker.KernelPackagesTrustedBoot s v) ++
              (axisPair Docker.SystemdPackages s v ++ axisPair Docker.SystemdPackages s v)
             else
              (axisPair Docker.KernelPackages s v ++ axisPair Docker.KernelPackages s v) ++
              (axisPair Docker.GrubPackages s v ++ axisPair Docker.GrubPackages s v) ++
              (axisPair Docker.ImmucorePackages s v ++
               axisPair Docker.ImmucorePackages s v))) := by
  intro s t v hv ha
  obtain ⟨d, f, a, ver⟩ := s
  have ha2 : a = .ArchCommon := ha
  subst ha2
  have hV : okList (Values.GetPackages ⟨d, f, .ArchCommon, ver⟩ t) =
      Values.CommonPackages ++
        (axisPair Values.BasePackages ⟨d, f, .ArchCommon, ver⟩ v ++
         axisPair Values.BasePackages ⟨d, f, .ArchCommon, ver⟩ v) ++
        (axisPair Values.KernelPackages ⟨d, f, .ArchCommon, ver⟩ v ++
         axisPair Values.KernelPackages ⟨d, f, .ArchCommon, ver⟩ v) ++
        (if t then
          axisPair Values.SystemdPackages ⟨d, f, .ArchCommon, ver⟩ v ++
          axisPair Values.SystemdPackages ⟨d, f, .ArchCommon, ver⟩ v
         else
          (axisPair Values.GrubPackages ⟨d, f, .ArchCommon, ver⟩ v ++
           axisPair Values.GrubPackages ⟨d, f, .ArchCommon, ver⟩ v) ++
          (axisPair Values.ImmucorePackages ⟨d, f, .ArchCommon, ver⟩ v ++
           axisPair Values.ImmucorePackages ⟨d, f, .ArchCommon, ver⟩ v)) := by
    cases t <;>
      simp [Values.GetPackages, Values.GetPackagesRanged, hv, okList,
        Values.selectedMaps, Values.selectedMapsGen, axisPair, resolveList,
        List.append_assoc]
  refine ⟨hV, ?_, ?_⟩
  · intro p hp
    have hpos : 0 < (axisPair Values.BasePackages ⟨d, f, .ArchCommon, ver⟩ v).count p := by
      rcases Nat.eq_zero_or_pos ((axisPair Values.BasePackages ⟨d, f, .ArchCommon, ver⟩ v).count p) with h0 | h0
      · exact absurd hp (List.count_eq_zero.mp h0)
      · exact h0
    rw [hV]
    cases t <;> simp [List.count_append] <;> omega
  · cases t <;>
      simp [Docker.GetPackages, Docker.FilterPackagesOnConstraint, hv, okList,
        Docker.selectedMaps, Docker.baseMaps, Docker.modeMaps, Docker.modeMapsGen,
        axisPair, resolveList, List.append_assoc]

/-- Witness for C10 at a concrete any-architecture Ubuntu system: the
base entry `fdisk` appears twice. -/
theorem c10_archcommon_witness :
    2 ≤ (okList (Values.GetPackages ⟨.Ubuntu, .DebianFamily, .ArchCommon, "24.04"⟩ false)).count "fdisk" :=
  (c10_archcommon_system_duplicates ⟨.Ubuntu, .DebianFamily, .ArchCommon, "24.04"⟩
      false [24, 4] rfl rfl).2.1 "fdisk" (by decide)
